import Mathlib

/-!
Verification of the `web-search` MCP server (`src/index.ts`, two variants).

The embedding models the result-extraction pipeline and the call-dispatch
contract. A fetched HTML document is represented by the list of its
`div.g` candidate result blocks in document order; each block carries the
text of its `h3` descendants, the `href` attribute of each `a` descendant
(`none` when the anchor has no `href`), and the text of its `.VwiC3b`
descendants. The outbound fetch is modelled by passing the fetched page
explicitly and counting fetch invocations (the handler performs exactly one
`axios.get` per `performSearch` call). JavaScript numbers are modelled as
`Int`: every claim under study concerns integer limits (clamping at 10,
`0 || 5` falsiness, negative values), none concerns fractional values.
-/

/-- A search result record: `interface SearchResult` in both variants. -/
structure SearchResult where
  title : String
  url : String
  description : String
deriving DecidableEq

/-- One `div.g` candidate block of the fetched document.
`h3s` lists the text of each `h3` descendant (so `$(element).find('h3')`
has length `h3s.length` and `.text()` is their concatenation), `anchors`
the `href` attribute of each `a` descendant in order, `snippets` the text
of each `.VwiC3b` descendant. -/
structure ResultBlock where
  h3s : List String
  anchors : List (Option String)
  snippets : List String
deriving DecidableEq

/-- `pat` matches the front of the char sequence. -/
def charsStart : List Char → List Char → Bool
  | [], _ => true
  | _ :: _, [] => false
  | c :: cs, d :: ds => c == d && charsStart cs ds

/-- JavaScript `s.startsWith(pat)`, modelled on the character sequences of
the two strings (for the ASCII pattern `"http"` this agrees with the
UTF-16 code-unit semantics of the JavaScript original). -/
def jsStartsWith (s pat : String) : Bool := charsStart pat.data s.data

/-- Body of the `$('div.g').each` callback, identical in both variants:
`titleElement.length && linkElement.length && url?.startsWith('http')`
guards the push. `linkElement.attr('href')` is the `href` of the first
matched anchor, `undefined` both when there is no anchor and when the
first anchor lacks `href`. `snippetElement.text() || ''` is the identity
on the concatenated snippet text, since `.text()` already yields `''` on
an empty match. -/
def blockRecord (b : ResultBlock) : Option SearchResult :=
  match b.anchors.head?.join with
  | some url =>
      if b.h3s.length != 0 && b.anchors.length != 0 && jsStartsWith url "http" then
        some ⟨String.join b.h3s, url, String.join b.snippets⟩
      else none
  | none => none

/-- The iteration of `$('div.g').each((i, element) => { if (i >= limit)
return false; ... })`: `i` is the index of the block in document order;
returning `false` stops the iteration. -/
def performSearchGo (limit : Int) : Nat → List ResultBlock → List SearchResult
  | _, [] => []
  | i, b :: bs =>
    if limit ≤ (i : Int) then []
    else
      match blockRecord b with
      | some r => r :: performSearchGo limit (i + 1) bs
      | none => performSearchGo limit (i + 1) bs

namespace Variant1

/-- `performSearch` of the first variant, as a function of the fetched
page's candidate blocks and the limit. -/
def performSearch (blocks : List ResultBlock) (limit : Int) : List SearchResult :=
  performSearchGo limit 0 blocks

end Variant1

/-- The constant record the second variant pushes before scanning blocks. -/
def placeholderRecord : SearchResult :=
  ⟨"titleElement", "http://localhost", "snippetElement.text()"⟩

/-- `limit || 5` applied to the zod-validated optional `limit` of the
second variant: `0` is falsy, every other integer is truthy. -/
def limitOrFiveOpt : Option Int → Int
  | some n => if n = 0 then 5 else n
  | none => 5

namespace Variant2

/-- `performSearch` of the second variant: pushes `placeholderRecord`
unconditionally, then runs the same `each` loop as the first variant. -/
def performSearch (blocks : List ResultBlock) (limit : Int) : List SearchResult :=
  placeholderRecord :: performSearchGo limit 0 blocks

/-- The `search` tool callback of the second variant:
`performSearch(query, limit || 5)`, with no `min(·, 10)` clamp. The zod
schema makes `limit` an optional number; the query only determines the
fetched page, passed explicitly. -/
def handleSearch (limit? : Option Int) (page : List ResultBlock) : List SearchResult :=
  performSearch page (limitOrFiveOpt limit?)

end Variant2

/-- Untyped JSON-decoded values at the call boundary (the shapes a JSON
body can take; property access on an array yields `undefined`, as for
JSON-decoded arrays in JavaScript). -/
inductive JSValue where
  | undefined
  | null
  | boolean (b : Bool)
  | number (n : Int)
  | string (s : String)
  | object (fields : List (String × JSValue))
  | array (elems : List JSValue)

/-- JavaScript property read `v.k` on a JSON-decoded value. -/
def getField (v : JSValue) (k : String) : JSValue :=
  match v with
  | .object fields =>
    match fields.find? (fun p => p.1 == k) with
    | some p => p.2
    | none => .undefined
  | _ => .undefined

/-- `typeof v === 'object'` (true for `null`, objects and arrays). -/
def typeofObject : JSValue → Bool
  | .null => true
  | .object _ => true
  | .array _ => true
  | _ => false

/-- `v === null`. -/
def isNull : JSValue → Bool
  | .null => true
  | _ => false

/-- `typeof v === 'string'`. -/
def isStringVal : JSValue → Bool
  | .string _ => true
  | _ => false

/-- `typeof v === 'number'`. -/
def isNumberVal : JSValue → Bool
  | .number _ => true
  | _ => false

/-- `v === undefined`. -/
def isUndefined : JSValue → Bool
  | .undefined => true
  | _ => false

/-- `isValidSearchArgs` of the first variant:
`typeof args === 'object' && args !== null && typeof args.query === 'string'
&& (args.limit === undefined || typeof args.limit === 'number')`. -/
def isValidSearchArgs (args : JSValue) : Bool :=
  typeofObject args && !isNull args &&
  isStringVal (getField args "query") &&
  (isUndefined (getField args "limit") || isNumberVal (getField args "limit"))

/-- `x || 5` applied to `args.limit` after validation (a number or
`undefined`): `0` is falsy, every other integer is truthy. -/
def limitOrFive (v : JSValue) : Int :=
  match v with
  | .number n => if n = 0 then 5 else n
  | _ => 5

/-- Outcome of the `CallToolRequestSchema` handler of the first variant. -/
inductive HandlerOutcome where
  | methodNotFound
  | invalidParams
  | ok (results : List SearchResult)
deriving DecidableEq

/-- The `CallToolRequestSchema` handler of the first variant. Returns the
outcome paired with the number of fetch invocations performed (each
`performSearch` call issues exactly one `axios.get`; the fetched page is
the `page` argument). The success envelope's JSON rendering is out of
scope; the outcome carries the result list itself. -/
def handleCallTool (toolName : String) (args : JSValue) (page : List ResultBlock) :
    HandlerOutcome × Nat :=
  if toolName ≠ "search" then (.methodNotFound, 0)
  else if !isValidSearchArgs args then (.invalidParams, 0)
  else
    let limit := min (limitOrFive (getField args "limit")) 10
    (.ok (Variant1.performSearch page limit), 1)

/-- Semantic reading of the validation contract: the arguments payload is
a structure containing a string `query`, with `limit` either absent or
numeric. -/
def WellFormedSearchArgs (args : JSValue) : Prop :=
  (∃ fields, args = JSValue.object fields) ∧
  (∃ s, getField args "query" = JSValue.string s) ∧
  (getField args "limit" = JSValue.undefined ∨
    ∃ n, getField args "limit" = JSValue.number n)

/-- Fixture: a well-formed candidate block. -/
def goodBlockA : ResultBlock := ⟨["Result A"], [some "http://a.example"], ["da"]⟩

/-- Fixture: a second well-formed candidate block. -/
def goodBlockB : ResultBlock := ⟨["Result B"], [some "http://b.example"], []⟩

/-- Fixture: a malformed candidate block (no heading, no anchor). -/
def badBlock : ResultBlock := ⟨[], [], []⟩

/-- Fixture: a block whose `h3` element exists but has empty text, with a
valid `http` anchor. -/
def emptyTitleBlock : ResultBlock := ⟨[""], [some "http://t.example"], []⟩

/-! ## Helper lemmas -/

/-- The `each` loop started at index `i` examines exactly the first
`(limit - i).toNat` remaining blocks and keeps the well-formed ones. -/
theorem performSearchGo_eq (limit : Int) (bs : List ResultBlock) :
    ∀ i : Nat, performSearchGo limit i bs =
      (bs.take (limit - i).toNat).filterMap blockRecord := by
  induction bs with
  | nil => intro i; simp [performSearchGo]
  | cons b bs ih =>
    intro i
    by_cases h : limit ≤ (i : Int)
    · have h0 : (limit - (i : Int)).toNat = 0 := by omega
      simp [performSearchGo, h, h0]
    · have h1 : (limit - (i : Int)).toNat = (limit - ((i : Int) + 1)).toNat + 1 := by
        omega
      have h2 : ((i + 1 : Nat) : Int) = (i : Int) + 1 := by push_cast; ring
      cases hr : blockRecord b with
      | some r => simp [performSearchGo, h, hr, h1, ih (i + 1), h2]
      | none => simp [performSearchGo, h, hr, h1, ih (i + 1), h2]

/-- The loop produces at most `(limit - i).toNat` records. -/
theorem performSearchGo_length_le (limit : Int) (bs : List ResultBlock) (i : Nat) :
    (performSearchGo limit i bs).length ≤ (limit - i).toNat := by
  rw [performSearchGo_eq]
  have h2 := List.length_filterMap_le blockRecord (bs.take (limit - (i : Int)).toNat)
  have h3 := List.length_take_le (limit - (i : Int)).toNat bs
  omega

/-- First variant: at most `limit.toNat` records come back. -/
theorem performSearch_length_le (blocks : List ResultBlock) (limit : Int) :
    (Variant1.performSearch blocks limit).length ≤ limit.toNat := by
  have h := performSearchGo_length_le limit blocks 0
  unfold Variant1.performSearch
  omega

/-- First variant: a nonpositive limit yields no records. -/
theorem performSearch_nonpos (blocks : List ResultBlock) (limit : Int)
    (h : limit ≤ 0) : Variant1.performSearch blocks limit = [] := by
  unfold Variant1.performSearch
  rw [performSearchGo_eq]
  have h0 : (limit - ((0 : Nat) : Int)).toNat = 0 := by omega
  rw [h0]
  simp

/-- An accepted record's URL passed the `url?.startsWith('http')` test. -/
theorem blockRecord_url (b : ResultBlock) (r : SearchResult)
    (h : blockRecord b = some r) : jsStartsWith r.url "http" = true := by
  unfold blockRecord at h
  split at h
  · split at h
    · rename_i url heq hcond
      cases h
      simp only [Bool.and_eq_true] at hcond
      exact hcond.2
    · cases h
  · cases h

/-- Every record the loop emits comes whole from one block of the scanned
list. -/
theorem performSearchGo_mem (limit : Int) (bs : List ResultBlock) (i : Nat)
    (r : SearchResult) (h : r ∈ performSearchGo limit i bs) :
    ∃ b, b ∈ bs ∧ blockRecord b = some r := by
  rw [performSearchGo_eq] at h
  rcases List.mem_filterMap.mp h with ⟨b, hb, hbr⟩
  exact ⟨b, List.mem_of_mem_take hb, hbr⟩

/-- `typeof v === 'string'` holds exactly on string values. -/
theorem isStringVal_iff (v : JSValue) :
    isStringVal v = true ↔ ∃ s, v = JSValue.string s := by
  cases v <;> simp [isStringVal]

/-- `typeof v === 'number'` holds exactly on numeric values. -/
theorem isNumberVal_iff (v : JSValue) :
    isNumberVal v = true ↔ ∃ n, v = JSValue.number n := by
  cases v <;> simp [isNumberVal]

/-- `v === undefined` holds exactly on `undefined`. -/
theorem isUndefined_iff (v : JSValue) :
    isUndefined v = true ↔ v = JSValue.undefined := by
  cases v <;> simp [isUndefined]

/-- `isValidSearchArgs` decides exactly the semantic validation contract. -/
theorem isValidSearchArgs_iff (args : JSValue) :
    isValidSearchArgs args = true ↔ WellFormedSearchArgs args := by
  unfold isValidSearchArgs WellFormedSearchArgs
  cases args <;>
    simp [typeofObject, isNull, getField, isStringVal_iff, isNumberVal_iff,
      isUndefined_iff]

/-! ## Claims -/

/-- C1 (counterexample): in the second variant, a call with requested
limit 1 on a page with one well-formed block returns 2 records — more
than the effective limit min(1, 10) = 1 — because of the unconditionally
prepended placeholder record. -/
theorem C1_counterexample :
    (Variant2.handleSearch (some 1) [goodBlockA]).length = 2 ∧
    ¬ ((Variant2.handleSearch (some 1) [goodBlockA]).length ≤
        (min (1 : Int) 10).toNat) := by
  have h : (Variant2.handleSearch (some 1) [goodBlockA]).length = 2 := rfl
  refine ⟨h, ?_⟩
  rw [h]
  decide

/-- C1 (amended): in the first variant, the handler returns at most
`max(effective, 0)` records where `effective = min(requestedLimit or 5,
10) ≤ 10`; in the second variant, whose handler applies no `min(·, 10)`
clamp and prepends a constant placeholder record, the returned length is
at most `max(requestedLimit or 5, 0) + 1`. -/
theorem C1_amended :
    (∀ (args : JSValue) (page : List ResultBlock) (res : List SearchResult)
        (k : Nat), handleCallTool "search" args page = (.ok res, k) →
        res.length ≤ (min (limitOrFive (getField args "limit")) 10).toNat ∧
        min (limitOrFive (getField args "limit")) 10 ≤ 10) ∧
    (∀ (limit? : Option Int) (page : List ResultBlock),
        (Variant2.handleSearch limit? page).length ≤
          (limitOrFiveOpt limit?).toNat + 1) := by
  constructor
  · intro args page res k h
    unfold handleCallTool at h
    rw [if_neg (by simp)] at h
    by_cases hv : isValidSearchArgs args
    · rw [if_neg (by simp [hv])] at h
      have hres : res = Variant1.performSearch page
          (min (limitOrFive (getField args "limit")) 10) := by
        cases h
        rfl
      subst hres
      refine ⟨performSearch_length_le _ _, min_le_right _ _⟩
    · rw [if_pos (by simp [hv])] at h
      cases h
  · intro limit? page
    show (placeholderRecord :: performSearchGo (limitOrFiveOpt limit?) 0 page).length ≤ _
    have h := performSearchGo_length_le (limitOrFiveOpt limit?) page 0
    simp only [List.length_cons]
    omega

/-- C1 (witness): the amended bounds applied at concrete inputs. -/
theorem C1_amended_witness :
    (([] : List SearchResult).length ≤
        (min (limitOrFive (getField (JSValue.object [("query", JSValue.string "q")])
          "limit")) 10).toNat ∧
      min (limitOrFive (getField (JSValue.object [("query", JSValue.string "q")])
        "limit")) 10 ≤ 10) ∧
    (Variant2.handleSearch (some 1) []).length ≤ (limitOrFiveOpt (some 1)).toNat + 1 :=
  ⟨C1_amended.1 (JSValue.object [("query", JSValue.string "q")]) [] [] 1 rfl,
   C1_amended.2 (some 1) []⟩

/-- C2 (counterexample): a document with two well-formed blocks after a
malformed first block, at limit 1, yields 0 records, not 1: the loop
bound counts examined blocks, not accepted records, so the malformed
early block consumes the budget. -/
theorem C2_counterexample :
    Variant1.performSearch [badBlock, goodBlockA, goodBlockB] 1 = [] ∧
    blockRecord badBlock = none ∧
    (blockRecord goodBlockA).isSome = true ∧
    (blockRecord goodBlockB).isSome = true ∧
    (Variant1.performSearch [badBlock, goodBlockA, goodBlockB] 1).length ≠ 1 := by
  exact ⟨rfl, rfl, rfl, rfl, by decide⟩

/-- C2 (amended): the loop examines exactly the first `limit` candidate
blocks in document order (early termination by examined-block index, not
by accepted-record count) and yields one record per well-formed block
among them; malformed blocks among the first `limit` candidates therefore
reduce the count, and exactly `limit` records result when the first
`limit` candidates are all well-formed. -/
theorem C2_amended (blocks : List ResultBlock) (limit : Int) :
    Variant1.performSearch blocks limit =
      (blocks.take limit.toNat).filterMap blockRecord := by
  unfold Variant1.performSearch
  rw [performSearchGo_eq]
  norm_num

/-- C3 (counterexample): a block whose `h3` element exists but carries
empty text, together with a valid `http` anchor, is emitted as a record
with an empty title — the guard tests element presence, not text
non-emptiness. -/
theorem C3_counterexample :
    Variant1.performSearch [emptyTitleBlock] 5 =
      [⟨"", "http://t.example", ""⟩] ∧
    (SearchResult.title ⟨"", "http://t.example", ""⟩) = "" :=
  ⟨rfl, rfl⟩

/-- C3 (amended): every emitted record has a `url` starting with `http`
and comes whole from one candidate block of the document (all-or-nothing
per block, never filled with placeholders); its title, however, is the
block's concatenated `h3` text, which may be empty. -/
theorem C3_amended (blocks : List ResultBlock) (limit : Int) (r : SearchResult)
    (h : r ∈ Variant1.performSearch blocks limit) :
    jsStartsWith r.url "http" = true ∧
    ∃ b, b ∈ blocks ∧ blockRecord b = some r := by
  rcases performSearchGo_mem limit blocks 0 r h with ⟨b, hb, hbr⟩
  exact ⟨blockRecord_url b r hbr, b, hb, hbr⟩

/-- C3 (witness): the amended claim applied at a concrete emitted record. -/
theorem C3_amended_witness :
    jsStartsWith (SearchResult.url ⟨"Result A", "http://a.example", "da"⟩)
      "http" = true ∧
    ∃ b, b ∈ [goodBlockA] ∧
      blockRecord b = some ⟨"Result A", "http://a.example", "da"⟩ :=
  C3_amended [goodBlockA] 5 ⟨"Result A", "http://a.example", "da"⟩
    (by rw [show Variant1.performSearch [goodBlockA] 5 =
          [⟨"Result A", "http://a.example", "da"⟩] from rfl]
        exact List.Mem.head _)

/-- C4 (counterexample): on the empty document the second variant's
output sequence holds one record while the document has zero accepted
candidate blocks, so the output is not an order-preserving sublist of the
accepted blocks' records — no order-matching correspondence between the
full output sequence and the accepted blocks exists. -/
theorem C4_counterexample :
    (Variant2.performSearch [] 5).length = 1 ∧
    List.filterMap blockRecord [] = ([] : List SearchResult) ∧
    ¬ List.Sublist (Variant2.performSearch [] 5)
        (List.filterMap blockRecord ([] : List ResultBlock)) := by
  refine ⟨rfl, rfl, ?_⟩
  intro h
  simpa [Variant2.performSearch] using List.sublist_nil.mp h

/-- C4 (amended): the first variant's full output, and the second
variant's output after its constant placeholder head record (which
corresponds to no accepted block), list the records of accepted blocks in
document order (an order-preserving sublist of the per-block records of
the whole document in document order); both variants' outputs are
deterministic functions of the document and the limit. -/
theorem C4_order_deterministic :
    (∀ (blocks : List ResultBlock) (limit : Int),
        List.Sublist (Variant1.performSearch blocks limit)
          (blocks.filterMap blockRecord) ∧
        List.Sublist ((Variant2.performSearch blocks limit).tail)
          (blocks.filterMap blockRecord)) ∧
    (∀ (blocks blocks2 : List ResultBlock) (limit limit2 : Int),
        blocks = blocks2 → limit = limit2 →
        Variant1.performSearch blocks limit =
          Variant1.performSearch blocks2 limit2 ∧
        Variant2.performSearch blocks limit =
          Variant2.performSearch blocks2 limit2) := by
  constructor
  · intro blocks limit
    have h : List.Sublist (performSearchGo limit 0 blocks)
        (blocks.filterMap blockRecord) := by
      rw [performSearchGo_eq]
      exact List.Sublist.filterMap blockRecord (List.take_sublist _ _)
    exact ⟨h, h⟩
  · intro blocks blocks2 limit limit2 hb hl
    subst hb
    subst hl
    exact ⟨rfl, rfl⟩

/-- C4 (witness): determinism applied at a concrete document and limit. -/
theorem C4_witness :
    Variant1.performSearch [goodBlockA] 3 = Variant1.performSearch [goodBlockA] 3 ∧
    Variant2.performSearch [goodBlockA] 3 = Variant2.performSearch [goodBlockA] 3 :=
  C4_order_deterministic.2 [goodBlockA] [goodBlockA] 3 3 rfl rfl

/-- C5 (counterexample): the second variant maps the empty document to
the singleton placeholder record, not to the empty sequence. -/
theorem C5_counterexample :
    Variant2.performSearch [] 5 = [placeholderRecord] ∧
    Variant2.performSearch [] 5 ≠ ([] : List SearchResult) := by
  refine ⟨rfl, ?_⟩
  simp [Variant2.performSearch]

/-- C5 (amended): on an empty document (no matching candidate blocks) the
first variant returns the empty sequence, without error; the second
variant returns exactly the singleton placeholder record. -/
theorem C5_amended (limit : Int) :
    Variant1.performSearch [] limit = [] ∧
    Variant2.performSearch [] limit = [placeholderRecord] :=
  ⟨rfl, rfl⟩

/-- C6: any arguments payload that is not a structure with a string
`query` and an absent-or-numeric `limit` fails with `InvalidParams`, with
zero fetch invocations. -/
theorem C6_invalidParams (args : JSValue) (page : List ResultBlock)
    (h : ¬ WellFormedSearchArgs args) :
    handleCallTool "search" args page = (.invalidParams, 0) := by
  have hv : isValidSearchArgs args = false := by
    cases hB : isValidSearchArgs args
    · rfl
    · exact absurd ((isValidSearchArgs_iff args).mp hB) h
  simp [handleCallTool, hv]

/-- C6 (witness): a call with a missing arguments structure is rejected
before any fetch. -/
theorem C6_witness :
    handleCallTool "search" JSValue.undefined [goodBlockA] = (.invalidParams, 0) :=
  C6_invalidParams JSValue.undefined [goodBlockA]
    (by rintro ⟨⟨fs, hfs⟩, -, -⟩; exact JSValue.noConfusion hfs)

/-- C7: a call whose operation name is not `search` fails with
`MethodNotFound`; the Search Service is never invoked (zero fetch
invocations and no result list produced). -/
theorem C7_methodNotFound (toolName : String) (args : JSValue)
    (page : List ResultBlock) (h : toolName ≠ "search") :
    handleCallTool toolName args page = (.methodNotFound, 0) := by
  simp [handleCallTool, h]

/-- C7 (witness): the unknown tool name `add` is rejected. -/
theorem C7_witness :
    handleCallTool "add" JSValue.undefined [goodBlockA] = (.methodNotFound, 0) :=
  C7_methodNotFound "add" JSValue.undefined [goodBlockA] (by decide)

/-- C8 (counterexample): the empty-string query passes validation and the
call proceeds to fetch (fetch count 1), contrary to the claim that empty
queries are rejected before any network I/O. -/
theorem C8_counterexample :
    isValidSearchArgs (JSValue.object [("query", JSValue.string "")]) = true ∧
    handleCallTool "search" (JSValue.object [("query", JSValue.string "")]) [] =
      (.ok [], 1) :=
  ⟨rfl, rfl⟩

/-- C8 (amended): validation only checks that `query` is a string; the
empty string is accepted, and such a request reaches the fetcher (exactly
one fetch) and is answered with the default effective limit 5. -/
theorem C8_amended (page : List ResultBlock) :
    handleCallTool "search" (JSValue.object [("query", JSValue.string "")]) page =
      (.ok (Variant1.performSearch page 5), 1) := rfl

/-- C9: the second variant's extractor unconditionally prepends the fixed
placeholder record, so for every document and limit its output is
non-empty and starts with that constant record. -/
theorem C9_placeholder (blocks : List ResultBlock) (limit : Int) :
    (Variant2.performSearch blocks limit).head? =
      some ⟨"titleElement", "http://localhost", "snippetElement.text()"⟩ ∧
    Variant2.performSearch blocks limit ≠ [] := by
  constructor
  · rfl
  · simp [Variant2.performSearch]

/-- C10: in the first variant, a caller-supplied limit of 0 passes
validation and behaves exactly like an omitted limit (effective limit 5),
while any negative numeric limit also passes validation and produces the
empty result list without error (one fetch still occurs, and extraction
accepts no blocks). -/
theorem C10_limit_zero_negative :
    (∀ q : String, isValidSearchArgs
        (JSValue.object [("query", JSValue.string q), ("limit", JSValue.number 0)]) =
        true) ∧
    (∀ (q : String) (page : List ResultBlock),
        handleCallTool "search"
          (JSValue.object [("query", JSValue.string q), ("limit", JSValue.number 0)])
          page =
        handleCallTool "search" (JSValue.object [("query", JSValue.string q)]) page) ∧
    (∀ (q : String) (page : List ResultBlock) (n : Int), n < 0 →
        handleCallTool "search"
          (JSValue.object [("query", JSValue.string q), ("limit", JSValue.number n)])
          page =
        (.ok [], 1)) := by
  refine ⟨fun q => rfl, fun q page => rfl, fun q page n hn => ?_⟩
  have h : handleCallTool "search"
      (JSValue.object [("query", JSValue.string q), ("limit", JSValue.number n)])
      page =
      (.ok (Variant1.performSearch page (min (if n = 0 then 5 else n) 10)), 1) := rfl
  rw [h, if_neg (by omega : ¬ n = 0), min_eq_left (by omega : n ≤ 10),
    performSearch_nonpos page n (by omega)]

/-- C10 (witness): the negative-limit case at −1 on a non-empty page. -/
theorem C10_witness :
    handleCallTool "search"
      (JSValue.object [("query", JSValue.string "q"), ("limit", JSValue.number (-1))])
      [goodBlockA] =
    (.ok [], 1) :=
  C10_limit_zero_negative.2.2 "q" [goodBlockA] (-1) (by decide)
